import Mathlib

/-!
Shallow embedding of the `simul` frontend (a browser upload-and-preview
interface for an audio-mixing workflow) and proofs about its claims.

The repository contains several variants of the `App` component plus an
upload widget:

* `AppMix`   — the offset-adjustment variant (src/unnamed/part_001, second
  document): prepare-audio submit, quarter-beat offset adjustment, finalize
  mix, New Mix reset, and a teardown effect revoking the processed-audio
  object URL.
* `AppPoll`  — the polling variant (src/frontend/src/App.jsx, first
  document): submit to `/process`, then poll `/status/{id}` every 2 s.
* `AppBlob`  — the blob-response variant (src/frontend/src/App.jsx, second
  document): submit to `/api/process-audio` with `responseType: 'blob'`.
* `AppSimple`— the minimal variant (src/unnamed/part_000).
* `Uploader` — the drag-and-drop widget (AudioUploader.jsx).

Each React event handler is embedded as a pure state-transition function.
The network is made explicit: a handler takes the response the single
`await`ed request would produce (`Except ApiErr …` for a failure or a parsed
success payload) and returns the new component state together with the
number of HTTP requests the handler issues on that run (0 when a guard
returns early, 1 otherwise — the handlers contain no loop or retry, so the
count is a constant per branch, read off the source).  JavaScript numbers
used for the offset are modelled as `Rat` (all offsets are multiples of
0.25, exactly representable), strings as `String`, nullable values as
`Option`.
-/

namespace AppMix

/-- JavaScript truthiness of a nullable string: `null`/`undefined` and the
empty string are falsy.  Used for guards written `if (!x)` in the source. -/
def truthy : Option String → Bool
  | none => false
  | some s => !s.isEmpty

/-- Server-reported failure payload attached to an axios error
(`err.response.data`): either a Blob whose text may or may not parse as
JSON (`parsed = none` models a `JSON.parse` throw, `parsed = some e` a
parsed object whose `error` field is `e`), or a plain JSON body with an
optional `error` field. -/
inductive RespData where
  | blob (parsed : Option (Option String))
  | json (errorField : Option String)
deriving DecidableEq

/-- An axios failure: the error `message` plus the optional
`response.data` payload (`none` when there is no response or its data is
falsy). -/
structure ApiErr where
  message : String
  response : Option RespData
deriving DecidableEq

/-- `handleApiError` (part_001 lines 131–155): turn an axios failure into
the error text stored in view state. -/
def handleApiError (err : ApiErr) : String :=
  match err.response with
  | some (RespData.blob parsed) =>
      match parsed with
      | some errorField =>
          "Server error: " ++
            (match errorField with
             | some e => if e.isEmpty then "Unknown error" else e
             | none => "Unknown error")
      | none => "Error processing audio: " ++ err.message
  | some (RespData.json errorField) =>
      "Error: " ++
        (match errorField with
         | some e => if e.isEmpty then err.message else e
         | none => err.message)
  | none => "Error processing audio: " ++ err.message

/-- Component state of the offset-adjustment `App` (part_001 lines 51–68):
one field per `useState` hook.  Files are represented by their names. -/
structure MixState where
  vocalAudio : Option String
  beatAudio : Option String
  vocalKey : String
  beatKey : String
  vocalBpm : String
  beatBpm : String
  isProcessing : Bool
  processedAudio : Option String
  error : Option String
  processingId : Option String
  offsetBeats : Rat
  previewUrl : Option String
  isAdjusting : Bool
  isMerging : Bool
  isPreviewMode : Bool
deriving DecidableEq

/-- Success payload of `/api/prepare-audio`. -/
structure PrepareResp where
  processing_id : Option String
  preview_url : String
  offset_beats : Option Rat
deriving DecidableEq

/-- Success payload of `/api/adjust-offset`. -/
structure AdjustResp where
  preview_url : String
deriving DecidableEq

/-- `handleSubmit` (part_001 lines 88–129): guard on both files, set the
in-progress flags, issue the prepare request, and either enter preview
mode from the response or store the rendered error. -/
def handleSubmit (s : MixState) (resp : Except ApiErr PrepareResp) :
    MixState × Nat :=
  if s.vocalAudio.isNone || s.beatAudio.isNone then (s, 0)
  else
    let s1 := { s with isProcessing := true, error := none,
                       processedAudio := none, isPreviewMode := false }
    match resp with
    | Except.ok r =>
        ({ s1 with processingId := r.processing_id,
                   previewUrl := some ("/api" ++ r.preview_url),
                   offsetBeats := r.offset_beats.getD 0,
                   isPreviewMode := true,
                   isProcessing := false }, 1)
    | Except.error e =>
        ({ s1 with error := some (handleApiError e),
                   isProcessing := false }, 1)

/-- `handleOffsetChange` (part_001 lines 157–180): return early when the
processing id is falsy; otherwise store the new offset, issue the
adjust-offset request, and on success cache-bust the preview URL with the
current time `now` (`Date.now()`). -/
def handleOffsetChange (s : MixState) (newOffset : Rat)
    (resp : Except ApiErr AdjustResp) (now : Nat) : MixState × Nat :=
  if truthy s.processingId then
    let s1 := { s with isAdjusting := true, offsetBeats := newOffset }
    match resp with
    | Except.ok r =>
        let url := "/api" ++ r.preview_url ++ "?t=" ++ toString now
        ({ s1 with previewUrl := some url, isAdjusting := false }, 1)
    | Except.error e =>
        ({ s1 with error := some (handleApiError e),
                   isAdjusting := false }, 1)
  else (s, 0)

/-- `handleQuarterBeatAdjustment` (part_001 lines 182–186): nudge the
offset by `direction * 0.25` beats. -/
def handleQuarterBeatAdjustment (s : MixState) (direction : Int)
    (resp : Except ApiErr AdjustResp) (now : Nat) : MixState × Nat :=
  handleOffsetChange s (s.offsetBeats + (direction : Rat) * (1/4)) resp now

/-- `resetOffset` (part_001 lines 188–190). -/
def resetOffset (s : MixState) (resp : Except ApiErr AdjustResp)
    (now : Nat) : MixState × Nat :=
  handleOffsetChange s 0 resp now

/-- `handleFinalizeMix` (part_001 lines 192–220): guard on the processing
id, issue the finalize request, and on success store the object URL the
browser issues for the returned blob (`issuedUrl` models
`URL.createObjectURL`). -/
def handleFinalizeMix (s : MixState) (resp : Except ApiErr Unit)
    (issuedUrl : String) : MixState × Nat :=
  if truthy s.processingId then
    let s1 := { s with isMerging := true }
    match resp with
    | Except.ok _ =>
        ({ s1 with processedAudio := some issuedUrl,
                   isPreviewMode := false,
                   isMerging := false }, 1)
    | Except.error e =>
        ({ s1 with error := some (handleApiError e),
                   isMerging := false }, 1)
  else (s, 0)

/-- The `New Mix` button's onClick (part_001 lines 502–515). -/
def newMix (s : MixState) : MixState :=
  { s with isPreviewMode := false, processedAudio := none,
           processingId := none, previewUrl := none, offsetBeats := 0 }

/-- `handleVocalAudioChange` (part_001 lines 76–80): only a present file
updates the state. -/
def handleVocalAudioChange (s : MixState) (f : Option String) : MixState :=
  match f with
  | some f0 => { s with vocalAudio := some f0 }
  | none => s

/-- `handleBeatAudioChange` (part_001 lines 82–86). -/
def handleBeatAudioChange (s : MixState) (f : Option String) : MixState :=
  match f with
  | some f0 => { s with beatAudio := some f0 }
  | none => s

/-- `disabled` prop of the Process Audio Files button (line 354). -/
def submitDisabled (s : MixState) : Bool :=
  s.vocalAudio.isNone || s.beatAudio.isNone || s.isProcessing

/-- `disabled` prop of the move-vocals-earlier button (line 415). -/
def adjustEarlierDisabled (s : MixState) : Bool := s.isAdjusting

/-- `disabled` prop of the move-vocals-later button (line 435). -/
def adjustLaterDisabled (s : MixState) : Bool := s.isAdjusting

/-- `disabled` prop of the reset-offset button (line 425). -/
def resetDisabled (s : MixState) : Bool :=
  s.isAdjusting || decide (s.offsetBeats = 0)

/-- `disabled` prop of the Finalize Mix button (line 458). -/
def finalizeDisabled (s : MixState) : Bool := s.isMerging

/-- Render condition of the offset/finalize control block (line 379):
`isPreviewMode && previewUrl`. -/
def offsetControlsRendered (s : MixState) : Bool :=
  s.isPreviewMode && truthy s.previewUrl

/-- Object URLs revoked by the unmount cleanup of the `useEffect` at
part_001 lines 222–229: the processed-audio URL, when truthy. -/
def teardownRevoked (s : MixState) : List String :=
  match s.processedAudio with
  | some u => if u.isEmpty then [] else [u]
  | none => []

end AppMix

namespace AppPoll

/-- Base URL of the backend (App.jsx line 6). -/
def API_URL : String := "http://localhost:8000"

/-- Component state of the polling `App` (App.jsx lines 9–15), one field
per `useState` hook; `status` ranges over idle / processing / completed /
error. -/
structure PollState where
  vocalFile : Option String
  beatFile : Option String
  processing : Bool
  jobId : Option String
  status : String
  downloadUrl : Option String
  error : String
deriving DecidableEq

/-- What a poll step does after its state update: stop polling, or
schedule another poll after `delayMs` milliseconds. -/
inductive PollAction where
  | stop : PollAction
  | repoll (delayMs : Nat) : PollAction
deriving DecidableEq

/-- One iteration of `pollStatus` (App.jsx lines 60–82) for the job `id`:
the response is a transport failure or the optional `status` field of the
JSON body.  `completed` stops and exposes the download URL, `processing`
schedules a repoll after 2000 ms, anything else stops with the error
message `Processing failed`. -/
def pollStep (id : String) (resp : Except String (Option String))
    (s : PollState) : PollState × PollAction :=
  match resp with
  | Except.error _ =>
      ({ s with status := "error", processing := false,
                error := "Error checking processing status" },
       PollAction.stop)
  | Except.ok st =>
      if st = some "completed" then
        ({ s with status := "completed", processing := false,
                  downloadUrl := some (API_URL ++ "/download/" ++ id) },
         PollAction.stop)
      else if st = some "processing" then (s, PollAction.repoll 2000)
      else
        ({ s with status := "error", processing := false,
                  error := "Processing failed" },
         PollAction.stop)

/-- The polling loop spawned by `handleSubmit`: consume one response per
poll request until a step stops, returning the final state and the list
of repoll delays incurred. -/
def pollLoop (id : String) (resps : List (Except String (Option String)))
    (s : PollState) : PollState × List Nat :=
  match resps with
  | [] => (s, [])
  | r :: rest =>
      match pollStep id r s with
      | (s1, PollAction.stop) => (s1, [])
      | (s1, PollAction.repoll d) =>
          let rec2 := pollLoop id rest s1
          (rec2.1, d :: rec2.2)

/-- `handleSubmit` (App.jsx lines 25–58): without both files, surface the
error and issue no request; otherwise POST to `/process` and, on success,
store the job id and start polling it (the last component is the id the
poll loop is started for). -/
def handleSubmit (s : PollState) (resp : Except String String) :
    PollState × Nat × Option String :=
  if s.vocalFile.isNone || s.beatFile.isNone then
    ({ s with error := "Please upload both vocal and beat files" }, 0, none)
  else
    match resp with
    | Except.ok jid =>
        ({ s with processing := true, status := "processing", error := "",
                  jobId := some jid }, 1, some jid)
    | Except.error _ =>
        ({ s with processing := false, status := "error",
                  error := "Error processing files. Please try again." },
         1, none)

/-- `disabled` prop of the submit button (App.jsx line 152). -/
def submitDisabled (s : PollState) : Bool :=
  s.processing || s.vocalFile.isNone || s.beatFile.isNone

end AppPoll

namespace AppSimple

/-- Component state of the minimal `App` (part_000 lines 16–20). -/
structure SState where
  vocalAudio : Option String
  beatAudio : Option String
  isProcessing : Bool
  processedAudio : Option String
  error : Option String
deriving DecidableEq

/-- `disabled` prop of the Process Audio Files button (part_000
line 114): only the file guards, no in-progress guard. -/
def submitDisabled (s : SState) : Bool :=
  s.vocalAudio.isNone || s.beatAudio.isNone

/-- `handleSubmit` (part_000 lines 35–62): silent early return without
both files; otherwise one request, storing either the issued object URL
or a fixed error message. -/
def handleSubmit (s : SState) (resp : Except String Unit)
    (issuedUrl : String) : SState × Nat :=
  if s.vocalAudio.isNone || s.beatAudio.isNone then (s, 0)
  else
    let s1 := { s with isProcessing := true, error := none }
    match resp with
    | Except.ok _ =>
        ({ s1 with processedAudio := some issuedUrl,
                   isProcessing := false }, 1)
    | Except.error _ =>
        let msg := "An error occurred while processing the audio files."
        ({ s1 with error := some msg, isProcessing := false }, 1)

end AppSimple

namespace AppBlob

/-- Component state of the blob-response `App` (App.jsx second document,
lines 186–190). -/
structure BState where
  vocalAudio : Option String
  beatAudio : Option String
  isProcessing : Bool
  processedAudio : Option String
  error : Option String
deriving DecidableEq

/-- A 2xx response of `/api/process-audio` in the blob variant: either a
JSON body (an error report with an optional `error` field) or an audio
blob. -/
inductive ProcessResp where
  | jsonBody (errorField : Option String)
  | audioBlob
deriving DecidableEq

/-- `handleSubmit` (App.jsx second document, lines 205–279): guard on both
files, then one request; a JSON 2xx body is rendered as a server error, an
audio blob becomes an object URL (`issuedUrl`), and the catch block is the
same rendering as `AppMix.handleApiError`.  The second component lists the
object URLs this run creates. -/
def handleSubmit (s : BState) (resp : Except AppMix.ApiErr ProcessResp)
    (issuedUrl : String) : BState × List String :=
  if s.vocalAudio.isNone || s.beatAudio.isNone then (s, [])
  else
    let s1 := { s with isProcessing := true, error := none,
                       processedAudio := none }
    match resp with
    | Except.ok (ProcessResp.jsonBody errorField) =>
        let msg := "Server error: " ++ errorField.getD "undefined"
        ({ s1 with error := some msg, isProcessing := false }, [])
    | Except.ok ProcessResp.audioBlob =>
        ({ s1 with processedAudio := some issuedUrl,
                   isProcessing := false }, [issuedUrl])
    | Except.error e =>
        ({ s1 with error := some (AppMix.handleApiError e),
                   isProcessing := false }, [])

/-- Object URLs revoked when the blob-variant component unmounts: it
registers no effect cleanup and never calls `revokeObjectURL`. -/
def teardownRevoked : List String := []

end AppBlob

namespace Uploader

/-- A selected file as the uploader sees it (name and MIME type). -/
structure UFile where
  name : String
  mimeType : String
deriving DecidableEq

/-- Object URLs the `AudioUploader` render creates (AudioUploader.jsx
lines 74–81): when a file is selected and its type starts with `audio/`,
the inline preview player's source is a fresh `URL.createObjectURL(file)`
(`issued` models the URL the browser hands back; the
`file.type.startsWith('audio/')` test is taken on the character list). -/
def previewUrls (file : Option UFile) (issued : String) : List String :=
  match file with
  | some f =>
      if "audio/".toList.isPrefixOf f.mimeType.toList then [issued] else []
  | none => []

/-- Object URLs revoked when `AudioUploader` unmounts: the component has
no effect cleanup and never calls `revokeObjectURL`. -/
def teardownRevoked : List String := []

end Uploader

/-! Concrete fixture states used by witnesses and counterexamples. -/

/-- Fresh offset-adjustment app state with both files selected. -/
def mixStart : AppMix.MixState :=
  { vocalAudio := some "vocal.mp3", beatAudio := some "beat.mp3",
    vocalKey := "C", beatKey := "Am", vocalBpm := "120", beatBpm := "120",
    isProcessing := false, processedAudio := none, error := none,
    processingId := none, offsetBeats := 0, previewUrl := none,
    isAdjusting := false, isMerging := false, isPreviewMode := false }

/-- Preview-mode state after a successful prepare submission. -/
def mixPreview : AppMix.MixState :=
  { mixStart with processingId := some "abc123",
                  previewUrl := some "/api/preview/abc123",
                  isPreviewMode := true }

/-- Preview-mode state with an offset-adjustment request in flight. -/
def mixAdjusting : AppMix.MixState := { mixPreview with isAdjusting := true }

/-- State after a successful finalize: a processed-audio object URL is set. -/
def mixDone : AppMix.MixState :=
  { mixPreview with processedAudio := some "blob:final",
                    isPreviewMode := false }

/-- Preview-mode state whose stored processing identifier is the empty
string (non-null but falsy). -/
def mixEmptyId : AppMix.MixState :=
  { mixPreview with processingId := some "" }

/-- A transport failure with no server response attached. -/
def netErr : AppMix.ApiErr := { message := "Network Error", response := none }

/-- Polling-app state with both files selected. -/
def pollStart : AppPoll.PollState :=
  { vocalFile := some "vocal.mp3", beatFile := some "beat.mp3",
    processing := false, jobId := none, status := "idle",
    downloadUrl := none, error := "" }

/-- Polling-app state missing the vocal file. -/
def pollNoVocal : AppPoll.PollState := { pollStart with vocalFile := none }

/-- Minimal-app state with both files selected and a request in flight. -/
def simpleProcessing : AppSimple.SState :=
  { vocalAudio := some "vocal.mp3", beatAudio := some "beat.mp3",
    isProcessing := true, processedAudio := none, error := none }

/-- An audio file as selected in the uploader widget. -/
def audioFile : Uploader.UFile := { name := "vocal.mp3", mimeType := "audio/mpeg" }

/-! Helper lemmas. -/

/-- Every branch of the error renderer prepends a non-empty literal, so
the stored message is never empty. -/
theorem handleApiError_ne_empty (e : AppMix.ApiErr) :
    AppMix.handleApiError e ≠ "" := by
  have h : 0 < (AppMix.handleApiError e).length := by
    unfold AppMix.handleApiError
    repeat' split
    all_goals simp [String.length_append]
    all_goals first
      | decide
      | exact Or.inl (by decide)
  intro hn
  rw [hn] at h
  simp at h

/-- Claim C4: each quarter-beat adjustment action changes the stored vocal
offset by exactly 0.25 beats in the chosen direction (minus 0.25 for the
earlier button's direction -1, plus 0.25 for the later button's direction
1), and the reset control sets the offset to exactly 0, whatever response
the accompanying request gets. -/
theorem c4_quarter_beat_and_reset (s : AppMix.MixState)
    (resp : Except AppMix.ApiErr AppMix.AdjustResp) (now : Nat)
    (h : AppMix.truthy s.processingId = true) :
    (AppMix.handleQuarterBeatAdjustment s (-1) resp now).1.offsetBeats
        = s.offsetBeats - 1/4
    ∧ (AppMix.handleQuarterBeatAdjustment s 1 resp now).1.offsetBeats
        = s.offsetBeats + 1/4
    ∧ (AppMix.resetOffset s resp now).1.offsetBeats = 0 := by
  cases resp <;>
    simp [AppMix.handleQuarterBeatAdjustment, AppMix.resetOffset,
          AppMix.handleOffsetChange, h] <;>
    ring

/-- Witness for C4 at a concrete preview-mode state. -/
theorem c4_quarter_beat_and_reset_witness :
    (AppMix.handleQuarterBeatAdjustment mixPreview (-1)
        (Except.ok { preview_url := "/preview/abc123" }) 7).1.offsetBeats
        = mixPreview.offsetBeats - 1/4
    ∧ (AppMix.handleQuarterBeatAdjustment mixPreview 1
        (Except.ok { preview_url := "/preview/abc123" }) 7).1.offsetBeats
        = mixPreview.offsetBeats + 1/4
    ∧ (AppMix.resetOffset mixPreview
        (Except.ok { preview_url := "/preview/abc123" }) 7).1.offsetBeats = 0 :=
  c4_quarter_beat_and_reset mixPreview
    (Except.ok { preview_url := "/preview/abc123" }) 7 (by decide)

/-- Claim C9: when an offset-adjustment request fails, the stored offset
keeps the newly requested value (it is written before the request is
awaited and the error branch does not restore it); only the error text is
added. -/
theorem c9_offset_kept_on_failure (s : AppMix.MixState) (newOffset : Rat)
    (err : AppMix.ApiErr) (now : Nat)
    (h : AppMix.truthy s.processingId = true) :
    (AppMix.handleOffsetChange s newOffset (Except.error err) now).1.offsetBeats
        = newOffset
    ∧ (AppMix.handleOffsetChange s newOffset (Except.error err) now).1.error
        = some (AppMix.handleApiError err) := by
  simp [AppMix.handleOffsetChange, h]

/-- Witness for C9: a failed adjustment away from offset 0 leaves the new
offset in place. -/
theorem c9_offset_kept_on_failure_witness :
    (AppMix.handleOffsetChange mixPreview (1/4) (Except.error netErr) 3).1.offsetBeats
        = 1/4
    ∧ (AppMix.handleOffsetChange mixPreview (1/4) (Except.error netErr) 3).1.error
        = some (AppMix.handleApiError netErr) :=
  c9_offset_kept_on_failure mixPreview (1/4) netErr 3 (by decide)

/-- Claim C10: during status polling, any reported status other than
completed or processing — unknown or missing alike — stops polling, clears
the in-progress flag, and stores exactly the message Processing failed. -/
theorem c10_unknown_status_fails (id : String) (s : AppPoll.PollState)
    (st : Option String)
    (h1 : st ≠ some "completed") (h2 : st ≠ some "processing") :
    AppPoll.pollStep id (Except.ok st) s
      = ({ s with status := "error", processing := false,
                  error := "Processing failed" }, AppPoll.PollAction.stop) := by
  simp [AppPoll.pollStep, h1, h2]

/-- Witness for C10 at the unknown status value failed. -/
theorem c10_unknown_status_fails_witness :
    AppPoll.pollStep "j1" (Except.ok (some "failed")) pollStart
      = ({ pollStart with status := "error", processing := false,
                          error := "Processing failed" },
         AppPoll.PollAction.stop) :=
  c10_unknown_status_fails "j1" pollStart (some "failed")
    (by decide) (by decide)

/-- Helper for C6: a run of n processing responses followed by completed
polls n + 1 times, repolling after 2000 ms each of the n times, and ends
completed with the download URL for the job exposed. -/
theorem pollLoop_processing_then_completed (id : String) (n : Nat)
    (s : AppPoll.PollState) :
    AppPoll.pollLoop id
        (List.replicate n (Except.ok (some "processing"))
          ++ [Except.ok (some "completed")]) s
      = ({ s with status := "completed", processing := false,
                  downloadUrl := some (AppPoll.API_URL ++ "/download/" ++ id) },
         List.replicate n 2000) := by
  induction n generalizing s with
  | zero => simp [AppPoll.pollLoop, AppPoll.pollStep]
  | succ n ih =>
      rw [List.replicate_succ, List.cons_append]
      rw [List.replicate_succ]
      simp [AppPoll.pollLoop, AppPoll.pollStep, ih]

/-- Claim C6: after a successful submission returns a job identifier the
interface stores it and starts polling it; while each poll reports
processing it repolls after 2000 ms, and the first completed report stops
the loop, marks processing finished, and exposes the job's download URL. -/
theorem c6_poll_until_completed (s : AppPoll.PollState) (id : String)
    (n : Nat) (hv : s.vocalFile.isNone = false)
    (hb : s.beatFile.isNone = false) :
    (AppPoll.handleSubmit s (Except.ok id)).2.2 = some id
    ∧ (AppPoll.handleSubmit s (Except.ok id)).1.jobId = some id
    ∧ AppPoll.pollLoop id
        (List.replicate n (Except.ok (some "processing"))
          ++ [Except.ok (some "completed")])
        (AppPoll.handleSubmit s (Except.ok id)).1
      = ({ (AppPoll.handleSubmit s (Except.ok id)).1 with
            status := "completed", processing := false,
            downloadUrl := some (AppPoll.API_URL ++ "/download/" ++ id) },
         List.replicate n 2000) := by
  refine ⟨?_, ?_, pollLoop_processing_then_completed id n _⟩ <;>
    simp [AppPoll.handleSubmit, hv, hb]

/-- Witness for C6: two processing reports then completed, from a state
with both files selected. -/
theorem c6_poll_until_completed_witness :
    (AppPoll.handleSubmit pollStart (Except.ok "j1")).2.2 = some "j1"
    ∧ (AppPoll.handleSubmit pollStart (Except.ok "j1")).1.jobId = some "j1"
    ∧ AppPoll.pollLoop "j1"
        (List.replicate 2 (Except.ok (some "processing"))
          ++ [Except.ok (some "completed")])
        (AppPoll.handleSubmit pollStart (Except.ok "j1")).1
      = ({ (AppPoll.handleSubmit pollStart (Except.ok "j1")).1 with
            status := "completed", processing := false,
            downloadUrl := some (AppPoll.API_URL ++ "/download/" ++ "j1") },
         List.replicate 2 2000) :=
  c6_poll_until_completed pollStart "j1" 2 (by decide) (by decide)

/-- Claim C1: for every backend request operation (prepare submit, offset
adjustment, finalize, status poll, polling-app submit), a failure is
handled at the call site: a non-empty error message is stored, the
operation's in-progress flag is cleared, and no retry or further request
is issued (the request count stays 1 for the submit-style handlers, and
the failed poll step stops instead of repolling). -/
theorem c1_failure_sets_error_clears_flag_no_retry :
    (∀ e : AppMix.ApiErr, AppMix.handleApiError e ≠ "")
    ∧ (∀ (s : AppMix.MixState) (e : AppMix.ApiErr),
        s.vocalAudio.isNone = false → s.beatAudio.isNone = false →
        (AppMix.handleSubmit s (Except.error e)).1.error
            = some (AppMix.handleApiError e)
        ∧ (AppMix.handleSubmit s (Except.error e)).1.isProcessing = false
        ∧ (AppMix.handleSubmit s (Except.error e)).2 = 1)
    ∧ (∀ (s : AppMix.MixState) (off : Rat) (e : AppMix.ApiErr) (now : Nat),
        AppMix.truthy s.processingId = true →
        (AppMix.handleOffsetChange s off (Except.error e) now).1.error
            = some (AppMix.handleApiError e)
        ∧ (AppMix.handleOffsetChange s off (Except.error e) now).1.isAdjusting
            = false
        ∧ (AppMix.handleOffsetChange s off (Except.error e) now).2 = 1)
    ∧ (∀ (s : AppMix.MixState) (e : AppMix.ApiErr) (url : String),
        AppMix.truthy s.processingId = true →
        (AppMix.handleFinalizeMix s (Except.error e) url).1.error
            = some (AppMix.handleApiError e)
        ∧ (AppMix.handleFinalizeMix s (Except.error e) url).1.isMerging = false
        ∧ (AppMix.handleFinalizeMix s (Except.error e) url).2 = 1)
    ∧ (∀ (id : String) (s : AppPoll.PollState) (m : String),
        AppPoll.pollStep id (Except.error m) s
          = ({ s with status := "error", processing := false,
                      error := "Error checking processing status" },
             AppPoll.PollAction.stop))
    ∧ (∀ (s : AppPoll.PollState) (m : String),
        s.vocalFile.isNone = false → s.beatFile.isNone = false →
        AppPoll.handleSubmit s (Except.error m)
          = ({ s with processing := false, status := "error",
                      error := "Error processing files. Please try again." },
             1, none)) := by
  refine ⟨handleApiError_ne_empty, ?_, ?_, ?_, ?_, ?_⟩
  · intro s e hv hb
    refine ⟨?_, ?_, ?_⟩ <;> simp [AppMix.handleSubmit, hv, hb]
  · intro s off e now h
    refine ⟨?_, ?_, ?_⟩ <;> simp [AppMix.handleOffsetChange, h]
  · intro s e url h
    refine ⟨?_, ?_, ?_⟩ <;> simp [AppMix.handleFinalizeMix, h]
  · intro id s m
    simp [AppPoll.pollStep]
  · intro s m hv hb
    simp [AppPoll.handleSubmit, hv, hb]

/-- Witness for C1: each failing operation at a concrete state and a
concrete transport error. -/
theorem c1_failure_sets_error_clears_flag_no_retry_witness :
    AppMix.handleApiError netErr ≠ ""
    ∧ (AppMix.handleSubmit mixStart (Except.error netErr)).1.isProcessing
        = false
    ∧ (AppMix.handleOffsetChange mixPreview (1/4) (Except.error netErr) 3).2
        = 1
    ∧ (AppMix.handleFinalizeMix mixPreview (Except.error netErr)
        "blob:final").1.isMerging = false
    ∧ (AppPoll.pollStep "j1" (Except.error "Network Error") pollStart).2
        = AppPoll.PollAction.stop
    ∧ (AppPoll.handleSubmit pollStart (Except.error "Network Error")).1.error
        = "Error processing files. Please try again." := by
  obtain ⟨h1, h2, h3, h4, h5, h6⟩ := c1_failure_sets_error_clears_flag_no_retry
  refine ⟨h1 netErr,
          (h2 mixStart netErr (by decide) (by decide)).2.1,
          (h3 mixPreview (1/4) netErr 3 (by decide)).2.2,
          (h4 mixPreview netErr "blob:final" (by decide)).2.1,
          ?_, ?_⟩
  · rw [h5 "j1" pollStart "Network Error"]
  · rw [h6 pollStart "Network Error" (by decide) (by decide)]

/-- Counterexample to claim C2 as stated: in a reachable preview-mode
state with an offset-adjustment request pending, the Finalize Mix control
is still enabled (its disabled prop only reads isMerging), and clicking it
issues a second request while the first is in flight. -/
theorem c2_finalize_enabled_while_adjusting_cex :
    mixAdjusting.isAdjusting = true
    ∧ AppMix.offsetControlsRendered mixAdjusting = true
    ∧ AppMix.finalizeDisabled mixAdjusting = false
    ∧ (AppMix.handleFinalizeMix mixAdjusting (Except.ok ()) "blob:final").2
        = 1 := by
  decide

/-- Claim C2 amended: each pending operation disables the control that
starts it — the submit button while a submit is processing, the
adjustment and reset buttons while an adjustment is pending, the finalize
button while a finalize is pending — but the finalize control stays
enabled while an offset adjustment is pending (and no finalize is), so a
second request can be started then. -/
theorem c2_each_operation_disables_its_control :
    (∀ s : AppMix.MixState, s.isProcessing = true →
        AppMix.submitDisabled s = true)
    ∧ (∀ s : AppMix.MixState, s.isAdjusting = true →
        AppMix.adjustEarlierDisabled s = true
        ∧ AppMix.adjustLaterDisabled s = true
        ∧ AppMix.resetDisabled s = true)
    ∧ (∀ s : AppMix.MixState, s.isMerging = true →
        AppMix.finalizeDisabled s = true)
    ∧ (∀ s : AppMix.MixState, s.isAdjusting = true → s.isMerging = false →
        AppMix.finalizeDisabled s = false) := by
  refine ⟨?_, ?_, ?_, ?_⟩
  · intro s h
    simp [AppMix.submitDisabled, h]
  · intro s h
    simp [AppMix.adjustEarlierDisabled, AppMix.adjustLaterDisabled,
          AppMix.resetDisabled, h]
  · intro s h
    simp [AppMix.finalizeDisabled, h]
  · intro s h1 h2
    simp [AppMix.finalizeDisabled, h2]

/-- Witness for the amended C2 at concrete in-flight states. -/
theorem c2_each_operation_disables_its_control_witness :
    AppMix.submitDisabled { mixStart with isProcessing := true } = true
    ∧ AppMix.adjustEarlierDisabled mixAdjusting = true
    ∧ AppMix.finalizeDisabled { mixPreview with isMerging := true } = true
    ∧ AppMix.finalizeDisabled mixAdjusting = false := by
  obtain ⟨h1, h2, h3, h4⟩ := c2_each_operation_disables_its_control
  exact ⟨h1 { mixStart with isProcessing := true } rfl,
         (h2 mixAdjusting rfl).1,
         h3 { mixPreview with isMerging := true } rfl,
         h4 mixAdjusting rfl rfl⟩

/-- Counterexample to claim C3 as stated: with the non-null but empty
processing identifier, the offset-adjustment and finalize handlers return
immediately and send nothing, although the claim says a non-null
identifier sends the request unconditionally. -/
theorem c3_empty_id_sends_nothing_cex :
    mixEmptyId.processingId ≠ none
    ∧ AppMix.handleOffsetChange mixEmptyId (1/4)
        (Except.ok { preview_url := "/preview/abc123" }) 9 = (mixEmptyId, 0)
    ∧ AppMix.handleFinalizeMix mixEmptyId (Except.ok ()) "blob:final"
        = (mixEmptyId, 0) := by
  decide

/-- Claim C3 amended: the offset-adjustment and finalize handlers validate
only the truthiness of the stored processing identifier — when it is null
or the empty string they return immediately, issuing no request and
changing no view state; when it is a non-empty string they issue exactly
one request whatever the offset value, with no retry. -/
theorem c3_guard_is_id_truthiness :
    (∀ (s : AppMix.MixState) (off : Rat)
        (resp : Except AppMix.ApiErr AppMix.AdjustResp) (now : Nat),
        AppMix.truthy s.processingId = false →
        AppMix.handleOffsetChange s off resp now = (s, 0))
    ∧ (∀ (s : AppMix.MixState) (off : Rat)
        (resp : Except AppMix.ApiErr AppMix.AdjustResp) (now : Nat),
        AppMix.truthy s.processingId = true →
        (AppMix.handleOffsetChange s off resp now).2 = 1)
    ∧ (∀ (s : AppMix.MixState) (resp : Except AppMix.ApiErr Unit)
        (url : String),
        AppMix.truthy s.processingId = false →
        AppMix.handleFinalizeMix s resp url = (s, 0))
    ∧ (∀ (s : AppMix.MixState) (resp : Except AppMix.ApiErr Unit)
        (url : String),
        AppMix.truthy s.processingId = true →
        (AppMix.handleFinalizeMix s resp url).2 = 1) := by
  refine ⟨?_, ?_, ?_, ?_⟩
  · intro s off resp now h
    simp [AppMix.handleOffsetChange, h]
  · intro s off resp now h
    cases resp <;> simp [AppMix.handleOffsetChange, h]
  · intro s resp url h
    simp [AppMix.handleFinalizeMix, h]
  · intro s resp url h
    cases resp <;> simp [AppMix.handleFinalizeMix, h]

/-- Witness for the amended C3: no request without an id, one request with
a non-empty id, for an arbitrary offset value. -/
theorem c3_guard_is_id_truthiness_witness :
    AppMix.handleOffsetChange mixStart (99/10) (Except.error netErr) 9
        = (mixStart, 0)
    ∧ (AppMix.handleOffsetChange mixPreview (99/10) (Except.error netErr) 9).2
        = 1
    ∧ AppMix.handleFinalizeMix mixStart (Except.ok ()) "blob:final"
        = (mixStart, 0)
    ∧ (AppMix.handleFinalizeMix mixPreview (Except.ok ()) "blob:final").2
        = 1 := by
  obtain ⟨h1, h2, h3, h4⟩ := c3_guard_is_id_truthiness
  exact ⟨h1 mixStart (99/10) (Except.error netErr) 9 (by decide),
         h2 mixPreview (99/10) (Except.error netErr) 9 (by decide),
         h3 mixStart (Except.ok ()) "blob:final" (by decide),
         h4 mixPreview (Except.ok ()) "blob:final" (by decide)⟩

/-- Counterexample to claim C5 as stated: the New Mix reset does not clear
the selected file handles — after it runs they are still set. -/
theorem c5_new_mix_keeps_files_cex :
    (AppMix.newMix mixDone).vocalAudio ≠ none
    ∧ (AppMix.newMix mixDone).beatAudio ≠ none := by
  decide

/-- Claim C5 amended: the server-issued processing identifier, the offset
value, the preview URL, and the processed-audio object URL are set on user
actions and cleared by the New Mix reset (the offset to 0, the rest to
null, leaving preview mode); the selected file handles are set on user
action but are not cleared by New Mix. -/
theorem c5_new_mix_clears_job_state (s : AppMix.MixState) (f : String) :
    (AppMix.newMix s).processingId = none
    ∧ (AppMix.newMix s).offsetBeats = 0
    ∧ (AppMix.newMix s).previewUrl = none
    ∧ (AppMix.newMix s).processedAudio = none
    ∧ (AppMix.newMix s).isPreviewMode = false
    ∧ (AppMix.newMix s).vocalAudio = s.vocalAudio
    ∧ (AppMix.newMix s).beatAudio = s.beatAudio
    ∧ (AppMix.handleVocalAudioChange s (some f)).vocalAudio = some f
    ∧ (AppMix.handleBeatAudioChange s (some f)).beatAudio = some f := by
  simp [AppMix.newMix, AppMix.handleVocalAudioChange,
        AppMix.handleBeatAudioChange]

/-- Counterexample to claim C7 as stated: the part_000 variant's submit
button reads only the file selections, so with both files selected it
stays enabled while a request is already in flight, and clicking it then
issues another request. -/
theorem c7_simple_submit_enabled_while_processing_cex :
    simpleProcessing.isProcessing = true
    ∧ AppSimple.submitDisabled simpleProcessing = false
    ∧ (AppSimple.handleSubmit simpleProcessing (Except.ok ()) "blob:out").2
        = 1 := by
  decide

/-- Claim C7 amended: in the polling variant (App.jsx) the submit button
is enabled exactly when both a vocal file and a beat file are selected
and no processing is in flight, and a submission attempted there without
both files issues no request and surfaces exactly the message Please
upload both vocal and beat files; in the part_000 variant, also cited by
the claim, the button is enabled whenever both files are selected, even
while a request is in flight. -/
theorem c7_submit_enablement_and_guard :
    (∀ s : AppPoll.PollState,
        AppPoll.submitDisabled s = false ↔
          (s.vocalFile.isSome = true ∧ s.beatFile.isSome = true
            ∧ s.processing = false))
    ∧ (∀ (s : AppPoll.PollState) (resp : Except String String),
        s.vocalFile.isNone = true ∨ s.beatFile.isNone = true →
        AppPoll.handleSubmit s resp
          = ({ s with error := "Please upload both vocal and beat files" },
             0, none))
    ∧ (∀ s : AppSimple.SState,
        AppSimple.submitDisabled s = false ↔
          (s.vocalAudio.isSome = true ∧ s.beatAudio.isSome = true)) := by
  refine ⟨?_, ?_, ?_⟩
  · intro s
    cases hv : s.vocalFile <;> cases hb : s.beatFile <;>
      cases hp : s.processing <;>
      simp [AppPoll.submitDisabled, hv, hb, hp]
  · intro s resp h
    rcases h with h | h <;> simp [AppPoll.handleSubmit, h]
  · intro s
    cases hv : s.vocalAudio <;> cases hb : s.beatAudio <;>
      simp [AppSimple.submitDisabled, hv, hb]

/-- Witness for the amended C7: the enablement equivalences and the
missing-file guard at concrete states. -/
theorem c7_submit_enablement_and_guard_witness :
    AppPoll.submitDisabled pollStart = false
    ∧ AppPoll.handleSubmit pollNoVocal (Except.ok "j1")
        = ({ pollNoVocal with
              error := "Please upload both vocal and beat files" }, 0, none)
    ∧ AppSimple.submitDisabled simpleProcessing = false := by
  obtain ⟨h1, h2, h3⟩ := c7_submit_enablement_and_guard
  exact ⟨(h1 pollStart).mpr (by decide),
         h2 pollNoVocal (Except.ok "j1") (Or.inl (by decide)),
         (h3 simpleProcessing).mpr (by decide)⟩

/-- Counterexample to claim C8 as stated: the uploader widget's inline
preview creates an object URL for the selected audio file, but the widget
revokes nothing on teardown, so that URL outlives the component. -/
theorem c8_uploader_url_never_revoked_cex :
    Uploader.previewUrls (some audioFile) "blob:preview1" = ["blob:preview1"]
    ∧ "blob:preview1" ∉ Uploader.teardownRevoked
    ∧ AppBlob.teardownRevoked = [] := by
  decide

/-- Claim C8 amended: only the offset-adjustment variant revokes an object
URL on component teardown, and only the processed-result URL; the
uploader's uploaded-file preview URLs and the blob variant's processed
URL are never revoked (their teardown revocation lists are empty). -/
theorem c8_only_mix_result_revoked (s : AppMix.MixState) (u : String)
    (h1 : s.processedAudio = some u) (h2 : u ≠ "") :
    u ∈ AppMix.teardownRevoked s
    ∧ Uploader.teardownRevoked = []
    ∧ AppBlob.teardownRevoked = [] := by
  refine ⟨?_, rfl, rfl⟩
  simp [AppMix.teardownRevoked, h1, String.isEmpty_iff, h2]

/-- Witness for the amended C8: the finalized-mix URL is in the
offset-adjustment variant's teardown revocation list. -/
theorem c8_only_mix_result_revoked_witness :
    "blob:final" ∈ AppMix.teardownRevoked mixDone
    ∧ Uploader.teardownRevoked = []
    ∧ AppBlob.teardownRevoked = [] :=
  c8_only_mix_result_revoked mixDone "blob:final" (by decide) (by decide)
